import Mathlib

/-
Verification of the pystarport cluster-orchestrator CLI layer
(src/pystarport/cli.py) against its natural-language specification.

The CLI functions are embedded as pure Lean functions that return the
ordered trace of observable effects they perform.  Helpers that live in
other modules of the repository (utils.interact, utils.build_cli_args,
cluster.init_cluster, the port allocator) are modelled from the spec
where their code is not available, as marked in their doc comments.
-/

namespace PyStarport

/-- Arguments forwarded by the CLI `init` wrapper to `cluster.init_cluster`:
positional data directory, config path, base port and dotenv, the extra
positional arguments and keyword arguments, plus the `resume` flag and the
relayer variant selector. -/
structure InitClusterArgs where
  data : String
  config : String
  basePort : Nat
  dotenv : Option String
  extraArgs : List String
  extraKwargs : List (String × String)
  resume : Bool
  relayer : String
deriving DecidableEq, Repr

/-- The two signals `start` registers handlers for. -/
inductive Sig
  | SIGINT
  | SIGTERM
deriving DecidableEq, Repr

/-- The handler installed by `start` for both signals: a lambda invoking
`supervisord.terminate()` on the supervised process group. -/
inductive Handler
  | terminateSupervisord
deriving DecidableEq, Repr

/-- Observable effects performed by the CLI-layer functions, in program
order. -/
inductive Effect
  | interactShell (cmd : String) (ignoreError : Bool)
  | initCluster (call : InitClusterArgs)
  | startCluster (data : String)
  | registerSignal (sig : Sig) (h : Handler)
  | tailerStart (data : String)
  | supervisordWait
  | tailerStop
  | tailerJoin
  | printLine (s : String)
deriving DecidableEq, Repr

/-- The shell command `init` runs when `resume` is false:
`rm -r {data}; mkdir {data}` with the data directory interpolated. -/
def rmCmd (data : String) : String :=
  "rm -r " ++ data ++ "; mkdir " ++ data

/-- Modelled from the spec: `utils.interact` is not under src/.  It runs a
shell command; `rmFails` is the environment's choice of whether the command
fails.  With `ignore_error=True` a failure is swallowed and the caller
proceeds; otherwise it surfaces as an error. -/
def interact (cmd : String) (rmFails : Bool) (ignoreError : Bool) :
    Except String Unit :=
  if rmFails && !ignoreError then Except.error ("command failed: " ++ cmd)
  else Except.ok ()

/-- Embedding of `cli.init`.  `icResult` gives the (opaque) return value of
`cluster.init_cluster` as a function of the arguments it receives; `rmFails`
is whether the removal shell command would fail.  Returns the effect trace
paired with the value `init` returns, or an error if one propagates. -/
def init {R : Type} (icResult : InitClusterArgs → R) (rmFails : Bool)
    (data config : String) (basePort : Nat) (dotenv : Option String)
    (extraArgs : List String) (extraKwargs : List (String × String))
    (resume : Bool) (relayer : String) : Except String (List Effect × R) :=
  let call : InitClusterArgs :=
    ⟨data, config, basePort, dotenv, extraArgs, extraKwargs, resume, relayer⟩
  if resume then
    Except.ok ([Effect.initCluster call], icResult call)
  else
    match interact (rmCmd data) rmFails true with
    | Except.error e => Except.error e
    | Except.ok _ =>
        Except.ok
          ([Effect.interactShell (rmCmd data) true, Effect.initCluster call],
            icResult call)

/-- Embedding of `cli.start`: start the cluster, register SIGINT and SIGTERM
handlers that terminate supervisord, start the log tailer unless quiet,
block on `supervisord.wait()`, then stop and join the tailer unless quiet.
The `resume` parameter is accepted but never read by the body. -/
def start (data : String) (quiet : Bool) (resume : Bool) : List Effect :=
  [Effect.startCluster data,
   Effect.registerSignal Sig.SIGINT Handler.terminateSupervisord,
   Effect.registerSignal Sig.SIGTERM Handler.terminateSupervisord] ++
  (if quiet then [] else [Effect.tailerStart data]) ++
  [Effect.supervisordWait] ++
  (if quiet then [] else [Effect.tailerStop, Effect.tailerJoin])

/-- Embedding of `cli.serve`: print a resume notice when resuming, call
`init` forwarding the resume flag and the chain binary as keyword argument
`cmd`, then call `start data quiet` with start's `resume` left at its
default `False`. -/
def serve {R : Type} (icResult : InitClusterArgs → R) (rmFails : Bool)
    (data config : String) (basePort : Nat) (dotenv : Option String)
    (cmd : String) (quiet resume : Bool) (relayer : String) :
    Except String (List Effect) :=
  let pre : List Effect :=
    if resume then
      [Effect.printLine ("Resuming chain from existing state in " ++ data)]
    else []
  match init icResult rmFails data config basePort dotenv [] [("cmd", cmd)]
      resume relayer with
  | Except.error e => Except.error e
  | Except.ok (t, _) => Except.ok (pre ++ t ++ start data quiet false)

/-- Modelled from the spec: `utils.build_cli_args` is not under src/; the
spec describes it only as translating caller-supplied positional and
keyword arguments to CLI form.  Positional arguments pass through; each
keyword pair becomes a `--key value` flag with underscores dashed. -/
def build_cli_args (args : List String) (kwargs : List (String × String)) :
    List String :=
  args ++ kwargs.flatMap (fun kv => ["--" ++ kv.1.replace "_" "-", kv.2])

/-- Outcome of the `chaind` passthrough: either the process image is
replaced via `execvp` (success, control never returns) or control returns
to the orchestrator. -/
inductive ProcOutcome
  | replaced (prog : String) (argv : List String)
  | returned
deriving DecidableEq, Repr

/-- Embedding of `CLI.chaind`: replaces the process image with the chain
binary applied to the translated arguments, with the binary itself as
argv[0]. -/
def chaind (cmd : String) (args : List String)
    (kwargs : List (String × String)) : ProcOutcome :=
  ProcOutcome.replaced cmd (cmd :: build_cli_args args kwargs)

/-- Modelled from the spec: the supervised process group is a single
handle whose only shutdown-relevant observable state is whether it has been
asked to terminate. -/
inductive SupervisordState
  | running
  | terminated
deriving DecidableEq, Repr

/-- Modelled from the spec: `terminate` drives the group to the terminated
state; the spec requires the shutdown request to be safe to fire multiple
times. -/
def terminateGroup : SupervisordState → SupervisordState :=
  fun _ => SupervisordState.terminated

/-- Semantics of a registered signal handler: the handler installed by
`start` invokes `supervisord.terminate()`. -/
def runHandler : Handler → SupervisordState → SupervisordState
  | Handler.terminateSupervisord, s => terminateGroup s

/-- The five service ports a node receives. -/
structure PortSet where
  p2p : Nat
  rpc : Nat
  grpc : Nat
  api : Nat
  pprof : Nat
deriving DecidableEq, Repr

/-- Modelled from the spec: the port-allocation code is not under src/.
The spec fixes the contract (pure, deterministic, injective over the
topology's size limits, strategy free with a fixed stride per service, per
node and per chain): a stride of 100 per chain ordinal, 10 per node ordinal
and 1 per service, all offset from the base port. -/
def allocate (chainOrd nodeOrd basePort : Nat) : PortSet where
  p2p := basePort + 100 * chainOrd + 10 * nodeOrd
  rpc := basePort + 100 * chainOrd + 10 * nodeOrd + 1
  grpc := basePort + 100 * chainOrd + 10 * nodeOrd + 2
  api := basePort + 100 * chainOrd + 10 * nodeOrd + 3
  pprof := basePort + 100 * chainOrd + 10 * nodeOrd + 4

/-- All port values of a PortSet, as a list. -/
def portList (ps : PortSet) : List Nat :=
  [ps.p2p, ps.rpc, ps.grpc, ps.api, ps.pprof]

/-- A topology abstracted to its per-chain validator counts: the list entry
at chain ordinal `c` is the number of nodes of chain `c`.  Valid when there
is at least one chain, every chain has at least one node, and chains stay
within the size limit the stride scheme is injective for (10 nodes). -/
def ValidTopology (topo : List Nat) : Prop :=
  topo ≠ [] ∧ ∀ k ∈ topo, 1 ≤ k ∧ k ≤ 10

instance (topo : List Nat) : Decidable (ValidTopology topo) := by
  unfold ValidTopology; infer_instance

/-- C1: for every data directory, config path, base port and relayer
variant (and every outcome of the removal command and every result of
init_cluster), calling `init` with `resume = true` performs no
remove-and-recreate of the data directory before `init_cluster`, while
`resume = false` first runs the removal-and-recreation shell command and
then `init_cluster`. -/
theorem init_resume_controls_removal {R : Type} (icResult : InitClusterArgs → R)
    (rmFails : Bool) (data config : String) (basePort : Nat)
    (dotenv : Option String) (extraArgs : List String)
    (extraKwargs : List (String × String)) (relayer : String) :
    init icResult rmFails data config basePort dotenv extraArgs extraKwargs
        true relayer
      = Except.ok
          ([Effect.initCluster
              ⟨data, config, basePort, dotenv, extraArgs, extraKwargs, true,
                relayer⟩],
            icResult
              ⟨data, config, basePort, dotenv, extraArgs, extraKwargs, true,
                relayer⟩) ∧
    init icResult rmFails data config basePort dotenv extraArgs extraKwargs
        false relayer
      = Except.ok
          ([Effect.interactShell (rmCmd data) true,
            Effect.initCluster
              ⟨data, config, basePort, dotenv, extraArgs, extraKwargs, false,
                relayer⟩],
            icResult
              ⟨data, config, basePort, dotenv, extraArgs, extraKwargs, false,
                relayer⟩) := by
  refine ⟨rfl, ?_⟩
  cases rmFails <;> rfl

/-- C2: the `resume` argument of `start` has no effect: for every data
directory and quiet flag, the traces for any two values of `resume`
coincide. -/
theorem start_resume_no_effect (data : String) (quiet : Bool)
    (r1 r2 : Bool) : start data quiet r1 = start data quiet r2 := rfl

/-- C4: before the blocking `supervisord.wait()` effect, `start` registers
handlers for both SIGINT and SIGTERM whose action is terminating the whole
supervised group, and running that handler twice is the same as running it
once (delivering the signal more than once is safe). -/
theorem start_registers_signals_before_wait (data : String)
    (quiet resume : Bool) :
    (∃ i j k : Nat, i < k ∧ j < k ∧
      (start data quiet resume)[i]?
        = some (Effect.registerSignal Sig.SIGINT Handler.terminateSupervisord) ∧
      (start data quiet resume)[j]?
        = some (Effect.registerSignal Sig.SIGTERM Handler.terminateSupervisord) ∧
      (start data quiet resume)[k]? = some Effect.supervisordWait) ∧
    (∀ s : SupervisordState,
      runHandler Handler.terminateSupervisord
          (runHandler Handler.terminateSupervisord s)
        = runHandler Handler.terminateSupervisord s) := by
  constructor
  · cases quiet
    · exact ⟨1, 2, 4, by omega, by omega, rfl, rfl, rfl⟩
    · exact ⟨1, 2, 3, by omega, by omega, rfl, rfl, rfl⟩
  · intro s
    rfl

/-- C5: the trace of `start` consists of a prefix not containing the
blocking wait, then the wait, and after it nothing but stopping and joining
the log tailer (and nothing at all when quiet): `start` returns only after
`wait()` has returned. -/
theorem start_blocks_until_wait (data : String) (quiet resume : Bool) :
    ∃ pre, start data quiet resume
        = pre ++ Effect.supervisordWait ::
            (if quiet then [] else [Effect.tailerStop, Effect.tailerJoin]) ∧
      Effect.supervisordWait ∉ pre := by
  cases quiet
  · exact ⟨[Effect.startCluster data,
      Effect.registerSignal Sig.SIGINT Handler.terminateSupervisord,
      Effect.registerSignal Sig.SIGTERM Handler.terminateSupervisord,
      Effect.tailerStart data], rfl, by simp⟩
  · exact ⟨[Effect.startCluster data,
      Effect.registerSignal Sig.SIGINT Handler.terminateSupervisord,
      Effect.registerSignal Sig.SIGTERM Handler.terminateSupervisord],
      rfl, by simp⟩

/-- C6: with `quiet = false` the tailer is started only after the cluster
is started, and after the wait it is stopped and then joined, in that
order, as the last actions of `start`; with `quiet = true` no tailer effect
occurs at all. -/
theorem start_tailer_lifecycle (data : String) (resume : Bool) :
    start data false resume
      = [Effect.startCluster data,
         Effect.registerSignal Sig.SIGINT Handler.terminateSupervisord,
         Effect.registerSignal Sig.SIGTERM Handler.terminateSupervisord,
         Effect.tailerStart data,
         Effect.supervisordWait,
         Effect.tailerStop,
         Effect.tailerJoin] ∧
    start data true resume
      = [Effect.startCluster data,
         Effect.registerSignal Sig.SIGINT Handler.terminateSupervisord,
         Effect.registerSignal Sig.SIGTERM Handler.terminateSupervisord,
         Effect.supervisordWait] := ⟨rfl, rfl⟩

/-- C7: for every argument combination (and every outcome of the removal
command and every init_cluster result function), `init` calls
`init_cluster` with exactly the arguments it received and returns
init_cluster's result unchanged. -/
theorem init_forwards_to_init_cluster {R : Type}
    (icResult : InitClusterArgs → R) (rmFails : Bool) (data config : String)
    (basePort : Nat) (dotenv : Option String) (extraArgs : List String)
    (extraKwargs : List (String × String)) (resume : Bool)
    (relayer : String) :
    ∃ t, init icResult rmFails data config basePort dotenv extraArgs
          extraKwargs resume relayer
        = Except.ok (t,
            icResult
              ⟨data, config, basePort, dotenv, extraArgs, extraKwargs, resume,
                relayer⟩) ∧
      Effect.initCluster
          ⟨data, config, basePort, dotenv, extraArgs, extraKwargs, resume,
            relayer⟩ ∈ t := by
  cases resume
  · cases rmFails <;> exact ⟨_, rfl, by simp⟩
  · exact ⟨_, rfl, by simp⟩

/-- C8: `chaind` replaces the process image with the configured chain
binary applied to the translated caller arguments (binary itself as
argv[0]) and never yields an outcome where control returns to the
orchestrator. -/
theorem chaind_execs_and_never_returns (cmd : String) (args : List String)
    (kwargs : List (String × String)) :
    chaind cmd args kwargs
        = ProcOutcome.replaced cmd (cmd :: build_cli_args args kwargs) ∧
    chaind cmd args kwargs ≠ ProcOutcome.returned := ⟨rfl, by simp [chaind]⟩

/-- C9: with `resume = false`, the removal-and-recreation command is run
with `ignore_error = True`, so whether or not it fails, `init` proceeds to
the `init_cluster` call with no error surfaced for the removal step. -/
theorem init_ignores_removal_failure {R : Type}
    (icResult : InitClusterArgs → R) (data config : String) (basePort : Nat)
    (dotenv : Option String) (extraArgs : List String)
    (extraKwargs : List (String × String)) (relayer : String) :
    ∀ rmFails : Bool,
      init icResult rmFails data config basePort dotenv extraArgs extraKwargs
          false relayer
        = Except.ok
            ([Effect.interactShell (rmCmd data) true,
              Effect.initCluster
                ⟨data, config, basePort, dotenv, extraArgs, extraKwargs, false,
                  relayer⟩],
              icResult
                ⟨data, config, basePort, dotenv, extraArgs, extraKwargs, false,
                  relayer⟩) := by
  intro rmFails
  cases rmFails <;> rfl

/-- C3: over a valid topology, `allocate` yields pairwise-disjoint PortSets
for distinct (chain ordinal, node ordinal) pairs with no port repeated
inside a PortSet, and a repeated call with identical arguments returns the
identical result. -/
theorem allocate_disjoint (topo : List Nat) (basePort : Nat)
    (hvalid : ValidTopology topo) (c1 n1 c2 n2 : Nat)
    (hc1 : c1 < topo.length) (hn1 : n1 < topo.getD c1 0)
    (hc2 : c2 < topo.length) (hn2 : n2 < topo.getD c2 0)
    (hne : c1 ≠ c2 ∨ n1 ≠ n2) :
    (∀ p, p ∈ portList (allocate c1 n1 basePort) →
      p ∉ portList (allocate c2 n2 basePort)) ∧
    (portList (allocate c1 n1 basePort)).Nodup ∧
    (portList (allocate c2 n2 basePort)).Nodup ∧
    allocate c1 n1 basePort = allocate c1 n1 basePort := by
  have hm1 : topo.getD c1 0 ∈ topo := by
    rw [List.getD_eq_getElem?_getD, List.getElem?_eq_getElem hc1]
    exact List.getElem_mem hc1
  have hm2 : topo.getD c2 0 ∈ topo := by
    rw [List.getD_eq_getElem?_getD, List.getElem?_eq_getElem hc2]
    exact List.getElem_mem hc2
  have hb1 : n1 ≤ 9 := by have := (hvalid.2 _ hm1).2; omega
  have hb2 : n2 ≤ 9 := by have := (hvalid.2 _ hm2).2; omega
  refine ⟨?_, ?_, ?_, rfl⟩
  · intro p hp1 hp2
    simp only [portList, allocate, List.mem_cons, List.not_mem_nil,
      or_false] at hp1 hp2
    rcases hne with hne | hne <;>
      rcases hp1 with h | h | h | h | h <;>
        rcases hp2 with h2 | h2 | h2 | h2 | h2 <;> omega
  · simp [portList, allocate, List.nodup_cons]
  · simp [portList, allocate, List.nodup_cons]

/-- Witness for C3 on the spec's own scenario: topology of 2 chains with 2
validators each and base port 26650, at the distinct pairs (0,0) and
(1,1). -/
theorem allocate_disjoint_witness :
    (ValidTopology [2, 2] ∧ (0 : Nat) < [2, 2].length ∧
      (0 : Nat) < [2, 2].getD 0 0 ∧ (1 : Nat) < [2, 2].length ∧
      (1 : Nat) < [2, 2].getD 1 0 ∧ ((0 : Nat) ≠ 1 ∨ (0 : Nat) ≠ 1)) ∧
    ((∀ p, p ∈ portList (allocate 0 0 26650) →
        p ∉ portList (allocate 1 1 26650)) ∧
      (portList (allocate 0 0 26650)).Nodup ∧
      (portList (allocate 1 1 26650)).Nodup ∧
      allocate 0 0 26650 = allocate 0 0 26650) :=
  ⟨⟨by decide, by decide, by decide, by decide, by decide,
      Or.inl (by decide)⟩,
    allocate_disjoint [2, 2] 26650 (by decide) 0 0 1 1 (by decide)
      (by decide) (by decide) (by decide) (Or.inl (by decide))⟩

/-- C10 counterexample: with `resume = true`, `serve` is not exactly the
sequential composition of `init` followed by `start` — it prints a resume
notice first, at concrete arguments data "d", config "cfg", base port
26650, no dotenv, chain binary "chain-maind", quiet false. -/
theorem serve_not_exact_composition :
    serve (fun _ => ()) false "d" "cfg" 26650 none "chain-maind" false true
        "hermes"
      ≠ Except.ok
          ((match init (fun _ => ()) false "d" "cfg" 26650 none []
              [("cmd", "chain-maind")] true "hermes" with
            | Except.ok p => p.1
            | Except.error _ => []) ++ start "d" false false) := by
  simp [serve, init, start, interact]

/-- C10 amended: `serve` prints a resume notice when and only when
`resume = true`, then performs `init` with the given resume flag and the
chain binary passed as keyword argument `cmd`, then `start data quiet` with
start's resume flag at its default `false`, and performs nothing else
between or after the two. -/
theorem serve_init_then_start {R : Type} (icResult : InitClusterArgs → R)
    (rmFails : Bool) (data config : String) (basePort : Nat)
    (dotenv : Option String) (cmd : String) (quiet resume : Bool)
    (relayer : String) :
    ∃ t r, init icResult rmFails data config basePort dotenv []
          [("cmd", cmd)] resume relayer = Except.ok (t, r) ∧
      serve icResult rmFails data config basePort dotenv cmd quiet resume
          relayer
        = Except.ok
            ((if resume then
                [Effect.printLine
                  ("Resuming chain from existing state in " ++ data)]
              else []) ++ t ++ start data quiet false) := by
  cases resume <;> cases rmFails <;> exact ⟨_, _, rfl, rfl⟩

end PyStarport

